import Mathlib

/-!
# Verification of the Slack daily-engagement statistics service

Shallow embedding of the core pipeline of the service:

* `statsService.js` — day-range computation (`getDayRange`,
  `getTimezoneDateParts`) and aggregation (`collectStatsForDate`,
  `persistSummary`);
* `eventsStore.js` — insert-if-absent event persistence
  (`saveReactionEvent`, `saveMemberEvent`, `saveMessageEvent`,
  `saveFileEvent`), range counts (`countReactionsBetween`, ...) and
  the summary upsert (`saveDailySummary`);
* `eventsHandler.js` — event normalization and dispatch
  (`slackTsToDate`, `handleReactionAdded`, `handleMemberJoined`,
  `handleMemberLeft`, `handleMessage`, `handleFileShared`,
  `processSlackEvent`);
* `scheduler.js` — date resolution and the daily summary job
  (`parseDateInput`, `getDefaultDate`, `runDailySummaryJob`);
* `server.js` — the manual-trigger endpoint (`/api/slack/run-summary`)
  and the slash-command trigger (`/api/slack/command`).

JavaScript `Date` instants are modelled as `Int` milliseconds since the
Unix epoch.  The proleptic Gregorian calendar conversions used by
`Date.UTC` / `Intl.DateTimeFormat` are modelled with the standard
civil-from-days / days-from-civil algorithms.  IANA timezones that the
service is configured with (`Asia/Kolkata`, `UTC`) have a fixed UTC
offset (no DST), so a timezone is modelled as its offset in minutes.
The PostgreSQL tables are modelled as lists of rows; `INSERT ... ON
CONFLICT` becomes an explicit insert-if-absent / upsert on the list.
-/

namespace SlackStats

/-! ## Calendar arithmetic (model of JavaScript `Date` UTC math)

`daysFromCivil` / `civilFromDays` convert between a Gregorian civil
date and a day number relative to 1970-01-01 (the epoch).  All interior
divisions are floor divisions (`Int.fdiv`) with positive divisors.
-/

/-- Number of days from 1970-01-01 to the civil date `y-m-d`
(month `1..12`, proleptic Gregorian).  `Date.UTC y (m-1) d` is
`daysFromCivil y m d * 86400000` milliseconds. -/
def daysFromCivil (y m d : Int) : Int :=
  let yr := if m ≤ 2 then y - 1 else y
  let era := Int.fdiv yr 400
  let yoe := yr - era * 400
  let mp := Int.emod (m + 9) 12
  let doy := Int.fdiv (153 * mp + 2) 5 + d - 1
  let doe := yoe * 365 + Int.fdiv yoe 4 - Int.fdiv yoe 100 + doy
  era * 146097 + doe - 719468

/-- Civil date `(y, m, d)` of a day number relative to 1970-01-01. -/
def civilFromDays (z0 : Int) : Int × Int × Int :=
  let z := z0 + 719468
  let era := Int.fdiv z 146097
  let doe := z - era * 146097
  let yoe := Int.fdiv (doe - Int.fdiv doe 1460 + Int.fdiv doe 36524 - Int.fdiv doe 146096) 365
  let y := yoe + era * 400
  let doy := doe - (365 * yoe + Int.fdiv yoe 4 - Int.fdiv yoe 100)
  let mp := Int.fdiv (5 * doy + 2) 153
  let d := doy - Int.fdiv (153 * mp + 2) 5 + 1
  let m := mp + (if mp < 10 then 3 else -9)
  (if m ≤ 2 then y + 1 else y, m, d)

/-- Milliseconds per day. -/
def msPerDay : Int := 86400000

/-- Civil UTC date of an epoch-millisecond instant. -/
def civilFromMs (ms : Int) : Int × Int × Int :=
  civilFromDays (Int.fdiv ms msPerDay)

/-- Epoch milliseconds of UTC midnight of a civil date
(what `Date.UTC(y, m - 1, d, 0, 0, 0, 0)` returns). -/
def msFromCivil (y m d : Int) : Int :=
  daysFromCivil y m d * msPerDay

/-- A fixed-offset model of an IANA timezone: minutes east of UTC.
The two zones the service uses have no DST transitions, so the offset
is constant. -/
structure Timezone where
  offsetMinutes : Int
deriving DecidableEq, Repr

/-- Zone `"UTC"`: offset 0. -/
def utcZone : Timezone := ⟨0⟩

/-- Zone `"Asia/Kolkata"`: UTC+05:30 year round. -/
def asiaKolkata : Timezone := ⟨330⟩

/-! ## statsService.js (timezone-aware revision) -/

/-- Source `getTimezoneDateParts(date, timezone)` of `statsService.js`:
the `(year, month, day)` calendar fields of the instant as displayed in
the given timezone, obtained in the source via
`Intl.DateTimeFormat('en-CA', { timeZone: timezone, ... })`.  For a
fixed-offset zone that is the UTC civil date of the offset-shifted
instant. -/
def getTimezoneDateParts (ms : Int) (tz : Timezone) : Int × Int × Int :=
  civilFromMs (ms + tz.offsetMinutes * 60000)

/-- Source `getDayRange(targetDate, timezone)` of `statsService.js`
(timezone-aware revision).  The source computes the calendar date of
`targetDate` in the timezone and then returns
`start = Date.UTC(year, month - 1, day, 0, 0, 0, 0)` and
`end = Date.UTC(year, month - 1, day, 23, 59, 59, 999)` —
i.e. *UTC* midnight of that calendar date, not the timezone's local
midnight. -/
def getDayRange (ms : Int) (tz : Timezone) : Int × Int :=
  let p := getTimezoneDateParts ms tz
  (msFromCivil p.1 p.2.1 p.2.2, msFromCivil p.1 p.2.1 p.2.2 + 86399999)

/-- Modelled from the spec (§4.3) and from `getDayRange`'s own doc
comment (`getDayRange(new Date('2024-01-15'), 'Asia/Kolkata')` returns
`{ start: 2024-01-14T18:30:00.000Z, end: 2024-01-15T18:29:59.999Z }`):
the day window whose `start` is the timezone's *local* midnight of the
calendar date converted to an absolute instant, and whose `end` is
23:59:59.999 local of the same date. -/
def specDayRange (ms : Int) (tz : Timezone) : Int × Int :=
  let p := getTimezoneDateParts ms tz
  let localMidnightUtc := msFromCivil p.1 p.2.1 p.2.2 - tz.offsetMinutes * 60000
  (localMidnightUtc, localMidnightUtc + 86399999)

/-! ## eventsStore.js — tables, insert-if-absent saves, range counts

Each PostgreSQL table is a list of rows (insertion order).  Every event
table has `event_id TEXT UNIQUE NOT NULL`; `INSERT ... ON CONFLICT
(event_id) DO NOTHING` inserts the row only when no row with the same
`event_id` exists.  The opaque `raw_event JSONB` audit column and the
`created_at` / serial `id` columns play no role in any query of the
service and are not modelled. -/

/-- A row of `reaction_events`. -/
structure ReactionRow where
  eventId : String
  channelId : String
  userId : String
  reaction : String
  eventTs : Int
deriving DecidableEq, Repr

/-- A row of `member_events`.  `eventType` is
`"member_joined_channel"` or `"member_left_channel"`. -/
structure MemberRow where
  eventId : String
  channelId : String
  userId : String
  eventType : String
  eventTs : Int
deriving DecidableEq, Repr

/-- A row of `message_events` (the timestamp column is named
`message_ts`). -/
structure MessageRow where
  eventId : String
  channelId : String
  userId : String
  messageTs : Int
deriving DecidableEq, Repr

/-- A row of `file_events` (`file_id` and `file_name` are nullable in
the schema; the handler always supplies a name). -/
structure FileRow where
  eventId : String
  channelId : String
  userId : String
  fileId : Option String
  fileName : String
  eventTs : Int
deriving DecidableEq, Repr

/-- Model of `INSERT ... ON CONFLICT (<key>) DO NOTHING` on a list-modelled
table: insert at the end unless a row with the same key already
exists.  `key` projects the unique column(s). -/
def insertIfAbsent {α : Type} (key : α → String) (db : List α) (r : α) : List α :=
  if db.any fun row => key row = key r then db else db ++ [r]

/-- Source `saveReactionEvent` of `eventsStore.js`. -/
def saveReactionEvent (db : List ReactionRow) (r : ReactionRow) : List ReactionRow :=
  insertIfAbsent (fun row => row.eventId) db r

/-- Source `saveMemberEvent` of `eventsStore.js`. -/
def saveMemberEvent (db : List MemberRow) (r : MemberRow) : List MemberRow :=
  insertIfAbsent (fun row => row.eventId) db r

/-- Source `saveMessageEvent` of `eventsStore.js`. -/
def saveMessageEvent (db : List MessageRow) (r : MessageRow) : List MessageRow :=
  insertIfAbsent (fun row => row.eventId) db r

/-- Source `saveFileEvent` of `eventsStore.js`. -/
def saveFileEvent (db : List FileRow) (r : FileRow) : List FileRow :=
  insertIfAbsent (fun row => row.eventId) db r

/-- Source `countReactionsBetween(channelId, start, end)`:
`SELECT COUNT(*) FROM reaction_events WHERE channel_id = $1 AND
event_ts >= $2 AND event_ts <= $3`. -/
def countReactionsBetween (db : List ReactionRow) (channelId : String) (start stop : Int) : Nat :=
  (db.filter fun r => r.channelId = channelId ∧ start ≤ r.eventTs ∧ r.eventTs ≤ stop).length

/-- Source `countNewMembersBetween`: same window, additionally
`event_type = 'member_joined_channel'`. -/
def countNewMembersBetween (db : List MemberRow) (channelId : String) (start stop : Int) : Nat :=
  (db.filter fun r =>
    r.channelId = channelId ∧ r.eventType = "member_joined_channel" ∧
      start ≤ r.eventTs ∧ r.eventTs ≤ stop).length

/-- Source `countMembersRemovedBetween`: same window, additionally
`event_type = 'member_left_channel'`. -/
def countMembersRemovedBetween (db : List MemberRow) (channelId : String) (start stop : Int) : Nat :=
  (db.filter fun r =>
    r.channelId = channelId ∧ r.eventType = "member_left_channel" ∧
      start ≤ r.eventTs ∧ r.eventTs ≤ stop).length

/-- Source `countMessagesBetween` (on the `message_ts` column). -/
def countMessagesBetween (db : List MessageRow) (channelId : String) (start stop : Int) : Nat :=
  (db.filter fun r => r.channelId = channelId ∧ start ≤ r.messageTs ∧ r.messageTs ≤ stop).length

/-- Source `countFileUploadsBetween`. -/
def countFileUploadsBetween (db : List FileRow) (channelId : String) (start stop : Int) : Nat :=
  (db.filter fun r => r.channelId = channelId ∧ start ≤ r.eventTs ∧ r.eventTs ≤ stop).length

/-! ## eventsStore.js — the daily-summary upsert -/

/-- A row of `daily_summaries` (`UNIQUE(channel_id, stat_date)`);
`message_ts TEXT` is nullable. -/
structure DailySummaryRow where
  channelId : String
  statDate : String
  reactionCount : Nat
  newMemberCount : Nat
  memberRemovedCount : Nat
  messageCount : Nat
  fileUploadCount : Nat
  messageTs : Option String
deriving DecidableEq, Repr

/-- The named arguments of `saveDailySummary` (counts are numbers by
the time the service calls it; the JavaScript `|| 0` fallbacks are the
identity on them, see `saveDailySummary`).  `messageTs` is the raw
argument, before the `messageTs || null` coercion. -/
structure SummaryParams where
  channelId : String
  statDate : String
  reactionCount : Nat
  newMemberCount : Nat
  memberRemovedCount : Nat
  messageCount : Nat
  fileUploadCount : Nat
  messageTs : Option String
deriving DecidableEq, Repr

/-- The JavaScript `messageTs || null` coercion: a missing *or empty*
string becomes SQL `NULL`. -/
def jsOrNull (m : Option String) : Option String :=
  match m with
  | none => none
  | some s => if s = "" then none else some s

/-- Source `saveDailySummary` of `eventsStore.js`:
`INSERT INTO daily_summaries ... ON CONFLICT (channel_id, stat_date)
DO UPDATE SET <the five counts> = EXCLUDED.<counts>,
message_ts = COALESCE(EXCLUDED.message_ts, daily_summaries.message_ts)`.
On conflict all five counts are replaced and `message_ts` is replaced
only when the incoming (already `|| null`-coerced) value is non-null.
The `memberRemovedCount || 0` / `messageCount || 0` /
`fileUploadCount || 0` fallbacks of the source map `0` and `undefined`
to `0`; on `Nat`-valued counts they are the identity. -/
def saveDailySummary (db : List DailySummaryRow) (p : SummaryParams) : List DailySummaryRow :=
  if db.any fun row => row.channelId = p.channelId ∧ row.statDate = p.statDate then
    db.map fun row =>
      if row.channelId = p.channelId ∧ row.statDate = p.statDate then
        { row with
          reactionCount := p.reactionCount
          newMemberCount := p.newMemberCount
          memberRemovedCount := p.memberRemovedCount
          messageCount := p.messageCount
          fileUploadCount := p.fileUploadCount
          messageTs :=
            match jsOrNull p.messageTs with
            | some s => some s
            | none => row.messageTs }
      else row
  else
    db ++ [{ channelId := p.channelId
             statDate := p.statDate
             reactionCount := p.reactionCount
             newMemberCount := p.newMemberCount
             memberRemovedCount := p.memberRemovedCount
             messageCount := p.messageCount
             fileUploadCount := p.fileUploadCount
             messageTs := jsOrNull p.messageTs }]

/-- Look up the (unique) summary row for a `(channel, date)` key. -/
def findSummary (db : List DailySummaryRow) (channelId statDate : String) : Option DailySummaryRow :=
  db.find? fun row => row.channelId = channelId ∧ row.statDate = statDate

/-! ## eventsHandler.js — normalization and dispatch

A raw Slack event body is a dynamic JSON object; the fields the
handlers read are modelled as `Option String` (absent = `undefined`).
JavaScript truthiness on such a field (`!channelId`,
`event.event_ts || event.ts`, ...) treats both `undefined` and the
empty string as falsy. -/

/-- JavaScript truthiness of an optional string field: `undefined`
and `""` are falsy, every other string is truthy. -/
def jsTruthy : Option String → Bool
  | none => false
  | some s => !s.isEmpty

/-- JavaScript `a || b` on two optional string fields. -/
def jsOr (a b : Option String) : Option String :=
  if jsTruthy a then a else b

/-- Numeric value of a list of decimal digit characters. -/
def digitsVal (l : List Char) : Nat :=
  l.foldl (fun acc c => acc * 10 + (c.toNat - 48)) 0

/-- Split a character list at the first `'.'`: the integer digits and,
when a dot is present, the remaining characters. -/
def splitOnDot : List Char → List Char × Option (List Char)
  | [] => ([], none)
  | c :: cs =>
    if c = '.' then ([], some cs)
    else
      let r := splitOnDot cs
      (c :: r.1, r.2)

/-- Model of `Number(s) * 1000` followed by `new Date(millis)` for a
Slack timestamp string: an unsigned decimal numeral (optionally with a
fractional part) interpreted as seconds is converted to integer epoch
milliseconds, fractional digits beyond the millisecond truncated (as
`Date`'s integer coercion does).  Any other string yields `none`
(JavaScript's `NaN` / Invalid Date). -/
def parseDecimalMs (s : String) : Option Int :=
  let parts := splitOnDot s.toList
  match parts.2 with
  | none =>
      if parts.1 ≠ [] ∧ parts.1.all (fun c => c.isDigit) then
        some ((digitsVal parts.1 * 1000 : Nat) : Int)
      else none
  | some fp =>
      if parts.1.all (fun c => c.isDigit) ∧ fp.all (fun c => c.isDigit)
          ∧ (parts.1 ≠ [] ∨ fp ≠ []) then
        some ((digitsVal parts.1 * 1000 + digitsVal ((fp ++ ['0', '0', '0']).take 3) : Nat) : Int)
      else none

/-- Source `slackTsToDate(eventTs)` of `eventsHandler.js`: a falsy
(`undefined` or empty) timestamp yields the current instant `now`;
otherwise the string is interpreted as fractional seconds since the
epoch and multiplied by 1000.  `none` is an Invalid Date (a
non-numeric string). -/
def slackTsToDate (eventTs : Option String) (now : Int) : Option Int :=
  match eventTs with
  | none => some now
  | some s => if s = "" then some now else parseDecimalMs s

/-- The fields of a raw Slack event body that the handlers read.
`type` is the dispatch tag (always present on a delivered event);
`itemChannel` is `event.item?.channel` (reactions), `fileName` is
`event.file?.name` (file events). -/
structure SlackEvent where
  type : String
  user : Option String := none
  channel : Option String := none
  itemChannel : Option String := none
  reaction : Option String := none
  subtype : Option String := none
  botId : Option String := none
  channelId : Option String := none
  userIdField : Option String := none
  fileId : Option String := none
  fileName : Option String := none
  eventTs : Option String := none
  ts : Option String := none
deriving DecidableEq, Repr

/-- The four event tables owned by the store. -/
structure Stores where
  reactions : List ReactionRow := []
  members : List MemberRow := []
  messages : List MessageRow := []
  files : List FileRow := []
deriving DecidableEq, Repr

/-- Source `handleReactionAdded` of `eventsHandler.js`: skip when
`event.item?.channel` is falsy, otherwise save a reaction row.  A
missing `user` or `reaction` makes the `NOT NULL` insert throw and the
handler's `catch` swallow it, and a non-numeric timestamp makes the
`Date` serialization throw likewise — in every such case the store is
left unchanged. -/
def handleReactionAdded (st : Stores) (eventId : String) (e : SlackEvent) (now : Int) : Stores :=
  if !jsTruthy e.itemChannel then st
  else
    match e.user, e.reaction, slackTsToDate e.eventTs now with
    | some u, some rx, some t =>
        let row : ReactionRow :=
          { eventId := eventId, channelId := e.itemChannel.getD "", userId := u,
            reaction := rx, eventTs := t }
        { st with reactions := saveReactionEvent st.reactions row }
    | _, _, _ => st

/-- Source `handleMemberJoined` of `eventsHandler.js`: requires
`event.channel`; stores `event.type` as the row's `event_type`;
timestamp from `event.event_ts || event.ts`. -/
def handleMemberJoined (st : Stores) (eventId : String) (e : SlackEvent) (now : Int) : Stores :=
  if !jsTruthy e.channel then st
  else
    match e.user, slackTsToDate (jsOr e.eventTs e.ts) now with
    | some u, some t =>
        let row : MemberRow :=
          { eventId := eventId, channelId := e.channel.getD "", userId := u,
            eventType := e.type, eventTs := t }
        { st with members := saveMemberEvent st.members row }
    | _, _ => st

/-- Source `handleMemberLeft` of `eventsHandler.js` (same body as
`handleMemberJoined` in the source). -/
def handleMemberLeft (st : Stores) (eventId : String) (e : SlackEvent) (now : Int) : Stores :=
  if !jsTruthy e.channel then st
  else
    match e.user, slackTsToDate (jsOr e.eventTs e.ts) now with
    | some u, some t =>
        let row : MemberRow :=
          { eventId := eventId, channelId := e.channel.getD "", userId := u,
            eventType := e.type, eventTs := t }
        { st with members := saveMemberEvent st.members row }
    | _, _ => st

/-- Source `handleMessage` of `eventsHandler.js`: requires
`event.channel`; skips (persists nothing) when the message carries a
truthy `subtype` or a truthy `bot_id`. -/
def handleMessage (st : Stores) (eventId : String) (e : SlackEvent) (now : Int) : Stores :=
  if !jsTruthy e.channel then st
  else if jsTruthy e.subtype || jsTruthy e.botId then st
  else
    match e.user, slackTsToDate (jsOr e.eventTs e.ts) now with
    | some u, some t =>
        let row : MessageRow :=
          { eventId := eventId, channelId := e.channel.getD "", userId := u,
            messageTs := t }
        { st with messages := saveMessageEvent st.messages row }
    | _, _ => st

/-- Source `handleFileShared` of `eventsHandler.js`: file events carry the
channel under `channel_id` and the user under `user_id`; the file name
defaults to `"Unknown"` when `event.file?.name` is falsy. -/
def handleFileShared (st : Stores) (eventId : String) (e : SlackEvent) (now : Int) : Stores :=
  if !jsTruthy e.channelId then st
  else
    match e.userIdField, slackTsToDate (jsOr e.eventTs e.ts) now with
    | some u, some t =>
        let row : FileRow :=
          { eventId := eventId, channelId := e.channelId.getD "", userId := u,
            fileId := e.fileId,
            fileName := if jsTruthy e.fileName then e.fileName.getD "" else "Unknown",
            eventTs := t }
        { st with files := saveFileEvent st.files row }
    | _, _ => st

/-- An inbound `event_callback` payload: the nested event body and the
external `event_id` (either may be missing or, for the id, empty). -/
structure SlackPayload where
  event : Option SlackEvent := none
  eventId : Option String := none
deriving DecidableEq, Repr

/-- Source `processSlackEvent(payload)` of `eventsHandler.js`: returns
immediately when the event body or the event id is falsy
(`if (!event || !eventId) return;`), otherwise dispatches on
`event.type`; unrecognized types are logged and ignored. -/
def processSlackEvent (st : Stores) (p : SlackPayload) (now : Int) : Stores :=
  match p.event with
  | none => st
  | some e =>
    if !jsTruthy p.eventId then st
    else
      let eventId := p.eventId.getD ""
      match e.type with
      | "reaction_added" => handleReactionAdded st eventId e now
      | "member_joined_channel" => handleMemberJoined st eventId e now
      | "member_left_channel" => handleMemberLeft st eventId e now
      | "message" => handleMessage st eventId e now
      | "file_shared" => handleFileShared st eventId e now
      | _ => st

/-! ## scheduler.js — date resolution -/

/-- Gregorian leap year. -/
def isLeapYear (y : Int) : Bool :=
  (Int.emod y 400 == 0) || (Int.emod y 4 == 0 && Int.emod y 100 != 0)

/-- Length of a month, used to validate an ISO `YYYY-MM-DD` string the
way `new Date(string)`'s ISO parser does. -/
def daysInMonth (y m : Int) : Int :=
  if m = 2 then (if isLeapYear y then 29 else 28)
  else if m = 4 ∨ m = 6 ∨ m = 9 ∨ m = 11 then 30
  else 31

/-- Source `parseDateInput(input)` of `scheduler.js`: `new Date(input)` on
the documented `"YYYY-MM-DD"` request format, which JavaScript parses
as UTC midnight of that calendar date; a missing input or a string
that is not a valid calendar date yields `null` (the
`Number.isNaN(parsed.getTime())` check). -/
def parseDateInput (input : Option String) : Option Int :=
  match input with
  | none => none
  | some s =>
    match s.toList with
    | [y1, y2, y3, y4, '-', m1, m2, '-', d1, d2] =>
      if [y1, y2, y3, y4, m1, m2, d1, d2].all (fun c => c.isDigit) then
        let y : Int := digitsVal [y1, y2, y3, y4]
        let m : Int := digitsVal [m1, m2]
        let d : Int := digitsVal [d1, d2]
        if 1 ≤ m ∧ m ≤ 12 ∧ 1 ≤ d ∧ d ≤ daysInMonth y m then
          some (msFromCivil y m d)
        else none
      else none
    | _ => none

/-- Source `getDefaultDate(useToday)` of `scheduler.js`:
`d = new Date(); if (!useToday) d.setDate(d.getDate() - 1);
d.setHours(0, 0, 0, 0);`.  The `Date` field operations act in the
process's local timezone, modelled as the fixed offset
`localOffsetMinutes`; the current instant `now` is explicit.  The
result is the local midnight of today's (or yesterday's) local
calendar date, as an absolute instant. -/
def getDefaultDate (useToday : Bool) (now localOffsetMinutes : Int) : Int :=
  let localMs := now + localOffsetMinutes * 60000
  let c := civilFromMs localMs
  let day := if useToday then c.2.2 else c.2.2 - 1
  msFromCivil c.1 c.2.1 day - localOffsetMinutes * 60000

/-- The target-date resolution at the top of `runDailySummaryJob`:
`const targetDate = parseDateInput(date) || getDefaultDate(defaultToToday);`
(a parsed `Date` object is always truthy, `null` is falsy). -/
def resolveTargetDate (date : Option String) (defaultToToday : Bool)
    (now localOffsetMinutes : Int) : Int :=
  (parseDateInput date).getD (getDefaultDate defaultToToday now localOffsetMinutes)

/-! ## statsService.js — aggregation -/

/-- The configuration fields the pipeline reads (`config.js`):
`slackChannelId` defaults to `''` when `SLACK_CHANNEL_ID` is unset
(JavaScript-falsy), and `timezone` is always a non-empty IANA name
(default `'Asia/Kolkata'`), so the `config.timezone || 'UTC'` fallback
in `collectStatsForDate` never fires and the field is modelled as
always present. -/
structure Config where
  slackChannelId : String
  timezone : Timezone
deriving DecidableEq, Repr

/-- Zero-pad a (two-digit) calendar field, as the `2-digit` option of
`Intl.DateTimeFormat('en-CA')` does. -/
def pad2 (n : Int) : String :=
  if n < 10 then "0" ++ toString n else toString n

/-- The `statDate` string of `collectStatsForDate`: the instant's
calendar date in the configured timezone, formatted `YYYY-MM-DD`
(`en-CA`). -/
def formatTzDate (ms : Int) (tz : Timezone) : String :=
  let p := getTimezoneDateParts ms tz
  toString p.1 ++ "-" ++ pad2 p.2.1 ++ "-" ++ pad2 p.2.2

/-- The summary value returned by `collectStatsForDate`. -/
structure Summary where
  channelId : String
  statDate : String
  reactionCount : Nat
  newMemberCount : Nat
  memberRemovedCount : Nat
  messageCount : Nat
  fileUploadCount : Nat
deriving DecidableEq, Repr

/-- Source `collectStatsForDate(targetDate)` of `statsService.js`
(timezone-aware revision): throws when no channel is configured,
otherwise issues the five range counts over the `getDayRange` window
and assembles the summary.  The five counts run under `Promise.all`;
they are independent read-only queries, so their concurrent execution
is observationally the tuple of the five pure counts. -/
def collectStatsForDate (cfg : Config) (st : Stores) (targetDate : Int) :
    Except String Summary :=
  if cfg.slackChannelId = "" then
    .error "SLACK_CHANNEL_ID is not configured."
  else
    let statDate := formatTzDate targetDate cfg.timezone
    let range := getDayRange targetDate cfg.timezone
    .ok { channelId := cfg.slackChannelId
          statDate := statDate
          reactionCount := countReactionsBetween st.reactions cfg.slackChannelId range.1 range.2
          newMemberCount := countNewMembersBetween st.members cfg.slackChannelId range.1 range.2
          memberRemovedCount := countMembersRemovedBetween st.members cfg.slackChannelId range.1 range.2
          messageCount := countMessagesBetween st.messages cfg.slackChannelId range.1 range.2
          fileUploadCount := countFileUploadsBetween st.files cfg.slackChannelId range.1 range.2 }

/-- Source `persistSummary(summary, messageTs)` of `statsService.js`: a
direct pass-through to `saveDailySummary`. -/
def persistSummary (db : List DailySummaryRow) (summary : Summary)
    (messageTs : Option String) : List DailySummaryRow :=
  saveDailySummary db
    { channelId := summary.channelId
      statDate := summary.statDate
      reactionCount := summary.reactionCount
      newMemberCount := summary.newMemberCount
      memberRemovedCount := summary.memberRemovedCount
      messageCount := summary.messageCount
      fileUploadCount := summary.fileUploadCount
      messageTs := messageTs }

/-! ## scheduler.js / server.js — the summary job and its triggers -/

/-- The options object passed to `runDailySummaryJob`.  The slash
command passes an extra `channelId` property; the function's parameter
destructuring `{ date, defaultToToday = false }` never reads it. -/
structure JobOptions where
  date : Option String := none
  defaultToToday : Bool := false
  channelId : Option String := none
deriving DecidableEq, Repr

/-- The world the job runs against: configuration, the event tables,
the summary table, the current instant, the process-local timezone
offset (for `getDefaultDate`), and the outcome the external
`postSummary` collaborator would produce (`.ok` an optional Slack
message timestamp — `null` when credentials are missing — or
`.error` when the outbound post throws). -/
structure JobEnv where
  cfg : Config
  stores : Stores := {}
  summaries : List DailySummaryRow := []
  now : Int
  localOffsetMinutes : Int := 0
  postResult : Except String (Option String) := .ok none

/-- The `try` body of `runDailySummaryJob`:
`collectStatsForDate → postSummary → persistSummary`, sequentially;
the first failure aborts the rest.  Returns the updated summary table
and the computed summary. -/
def runDailySummaryJobBody (env : JobEnv) (opts : JobOptions) :
    Except String (List DailySummaryRow × Summary) :=
  let targetDate := resolveTargetDate opts.date opts.defaultToToday env.now env.localOffsetMinutes
  match collectStatsForDate env.cfg env.stores targetDate with
  | .error e => .error e
  | .ok summary =>
    match env.postResult with
    | .error e => .error e
    | .ok messageTs => .ok (persistSummary env.summaries summary messageTs, summary)

/-- Source `runDailySummaryJob(options)` of `scheduler.js`: the whole body
runs inside `try { ... } catch (error) { console.error(...); }` — any
failure is logged and swallowed, so the function itself never throws
(`Except.error` is unreachable) and on failure the summary table is
untouched and no summary is produced. -/
def runDailySummaryJob (env : JobEnv) (opts : JobOptions) :
    Except String (List DailySummaryRow × Option Summary) :=
  .ok (match runDailySummaryJobBody env opts with
       | .ok (db, summary) => (db, some summary)
       | .error _ => (env.summaries, none))

/-- The JSON reply of the manual trigger: HTTP status, the `success`
flag, and the optional `error` message (the `date` echo field carries
no success information and is not modelled). -/
structure HttpResponse where
  status : Nat
  success : Bool
  error : Option String
deriving DecidableEq, Repr

/-- Endpoint `POST /api/slack/run-summary` of `server.js`:
`try { await runDailySummaryJob({ date, defaultToToday: false });
res.json({ success: true, ... }) } catch (error) {
res.status(500).json({ success: false, error: error.message }) }`.
The failure branch fires only when `runDailySummaryJob` itself
throws. -/
def runSummaryEndpoint (env : JobEnv) (date : Option String) :
    HttpResponse × List DailySummaryRow :=
  match runDailySummaryJob env { date := date, defaultToToday := false } with
  | .ok (db, _) => ({ status := 200, success := true, error := none }, db)
  | .error e => ({ status := 500, success := false, error := some e }, env.summaries)

/-- Endpoint `POST /api/slack/command` (`/dailyengage`) of `server.js`: after
acknowledging, it calls
`runDailySummaryJob({ defaultToToday: false, channelId })` with the
channel the command was typed in. -/
def slashCommandTrigger (env : JobEnv) (channelId : String) :
    Except String (List DailySummaryRow × Option Summary) :=
  runDailySummaryJob env { defaultToToday := false, channelId := some channelId }

/-! ## Concrete sample data (used by witnesses and counterexamples) -/

/-- A configuration with the channel set and timezone Asia/Kolkata
(the defaults of `config.js` with `SLACK_CHANNEL_ID=C1`). -/
def cfgKolkata : Config := { slackChannelId := "C1", timezone := asiaKolkata }

/-- A reaction row at `2024-01-14T18:30:00Z` — 00:00:00 IST on
Jan 15, the first instant of the Kolkata-local Jan 15 window. -/
def reactionAtKolkataMidnight : ReactionRow :=
  { eventId := "Ev1", channelId := "C1", userId := "U1",
    reaction := "thumbsup", eventTs := 1705257000000 }

/-- A store holding only `reactionAtKolkataMidnight`. -/
def storesKolkataMidnight : Stores := { reactions := [reactionAtKolkataMidnight] }

/-- The spec's end-to-end reaction envelope:
`{kind: "reaction", id: "Ev1", body: {actor: "U1", reaction:
"thumbsup", target: {channel: "C1"}, ts: "1700000000.0"}}`. -/
def sampleReactionPayload : SlackPayload :=
  { event := some { type := "reaction_added", user := some "U1",
                    reaction := some "thumbsup", itemChannel := some "C1",
                    eventTs := some "1700000000.0" },
    eventId := some "Ev1" }

/-- A message event carrying the `message_changed` subtype. -/
def editedMessageEvent : SlackEvent :=
  { type := "message", user := some "U1", channel := some "C1",
    subtype := some "message_changed", ts := some "1700000000.0" }

/-- A well-formed job environment: channel configured, one reaction
stored, outbound post succeeding with message timestamp `"111.22"`. -/
def envOk : JobEnv :=
  { cfg := cfgKolkata, stores := storesKolkataMidnight, summaries := [],
    now := 1705300000000, localOffsetMinutes := 330,
    postResult := .ok (some "111.22") }

/-- A job environment whose outbound post throws (`postSummary`
rejects): the aggregation-post-persist pipeline fails. -/
def envPostFails : JobEnv :=
  { cfg := cfgKolkata, stores := storesKolkataMidnight, summaries := [],
    now := 1705300000000, localOffsetMinutes := 330,
    postResult := .error "An API error occurred: channel_not_found" }

/-- The summary `runDailySummaryJob envOk {}` computes (target date
resolves to Kolkata-local yesterday, 2024-01-14). -/
def summaryJan14 : Summary :=
  { channelId := "C1", statDate := "2024-01-14", reactionCount := 1,
    newMemberCount := 0, memberRemovedCount := 0, messageCount := 0,
    fileUploadCount := 0 }

/-- The summary row `runDailySummaryJob envOk {}` persists. -/
def summaryRowJan14 : DailySummaryRow :=
  { channelId := "C1", statDate := "2024-01-14", reactionCount := 1,
    newMemberCount := 0, memberRemovedCount := 0, messageCount := 0,
    fileUploadCount := 0, messageTs := some "111.22" }

/-- A redelivery of `Ev1` with different payload fields (webhook
redeliveries need not be byte-identical). -/
def reactionDuplicate : ReactionRow :=
  { eventId := "Ev1", channelId := "C2", userId := "U9",
    reaction := "eyes", eventTs := 0 }

/-- A sample member-joined row. -/
def memberJoinSample : MemberRow :=
  { eventId := "Ev2", channelId := "C1", userId := "U2",
    eventType := "member_joined_channel", eventTs := 1705300000000 }

/-- A sample message row. -/
def messageSample : MessageRow :=
  { eventId := "Ev3", channelId := "C1", userId := "U3",
    messageTs := 1705300000000 }

/-- A sample file row. -/
def fileSample : FileRow :=
  { eventId := "Ev4", channelId := "C1", userId := "U4",
    fileId := some "F1", fileName := "doc.pdf", eventTs := 1705300000000 }

/-- A first persist for `(C1, 2024-01-15)` carrying an outbound
message reference. -/
def summaryParamsA : SummaryParams :=
  { channelId := "C1", statDate := "2024-01-15", reactionCount := 5,
    newMemberCount := 1, memberRemovedCount := 0, messageCount := 10,
    fileUploadCount := 2, messageTs := some "111.22" }

/-- A re-aggregation persist for the same key with no outbound
reference. -/
def summaryParamsB : SummaryParams :=
  { channelId := "C1", statDate := "2024-01-15", reactionCount := 7,
    newMemberCount := 2, memberRemovedCount := 1, messageCount := 12,
    fileUploadCount := 3, messageTs := none }

end SlackStats

namespace SlackStats

/-- Day-number linearity of `daysFromCivil` in the day field: the day
before `y-m-d` is one day number earlier (this is what makes
`setDate(getDate() - 1)` shift the civil day by one). -/
theorem daysFromCivil_day_pred (y m d : Int) :
    daysFromCivil y m (d - 1) = daysFromCivil y m d - 1 := by
  simp only [daysFromCivil]
  ring

/-- Sanity: the epoch. -/
example : daysFromCivil 1970 1 1 = 0 := by decide

/-- Sanity: round trip on 2024-01-15. -/
example : civilFromDays 19737 = (2024, 1, 15) := by decide

/-- Lemma: `msFromCivil` steps by one day when the day field steps by one. -/
theorem msFromCivil_day_pred (y m d : Int) :
    msFromCivil y m (d - 1) = msFromCivil y m d - 86400000 := by
  simp only [msFromCivil, daysFromCivil_day_pred, msPerDay]
  ring

/-- After `insertIfAbsent key db r`, some row with key `key r` is
present. -/
theorem insertIfAbsent_any_key {α : Type} (key : α → String) (db : List α) (r : α) :
    ((insertIfAbsent key db r).any fun x => key x = key r) = true := by
  unfold insertIfAbsent
  split
  · next h => exact h
  · simp

/-- Re-inserting any row with an already-present key is a no-op. -/
theorem insertIfAbsent_second_noop {α : Type} (key : α → String) (db : List α) (r r' : α)
    (hk : key r' = key r) :
    insertIfAbsent key (insertIfAbsent key db r) r' = insertIfAbsent key db r := by
  have h := insertIfAbsent_any_key key db r
  conv_lhs => rw [insertIfAbsent]
  simp [hk, h]

/-- Inserting a row with a fresh key leaves exactly that row under the
key. -/
theorem insertIfAbsent_filter_fresh {α : Type} (key : α → String) (db : List α) (r : α)
    (hf : (db.filter fun x => key x = key r) = []) :
    ((insertIfAbsent key db r).filter fun x => key x = key r) = [r] := by
  have hany : (db.any fun x => key x = key r) = false := by
    rcases h : db.any fun x => key x = key r with _ | _
    · rfl
    · exfalso
      rcases List.any_eq_true.mp h with ⟨x, hx, hxk⟩
      have : x ∈ db.filter fun x => key x = key r := List.mem_filter.mpr ⟨hx, hxk⟩
      rw [hf] at this
      exact absurd this (List.not_mem_nil x)
  unfold insertIfAbsent
  rw [hany]
  simp [List.filter_append, hf]

/-- The two properties of claim C2 for a single table. -/
theorem insertIfAbsent_dedup {α : Type} (key : α → String) (db : List α) (r r' : α)
    (hk : key r' = key r) :
    insertIfAbsent key (insertIfAbsent key db r) r' = insertIfAbsent key db r ∧
    ((db.filter fun x => key x = key r) = [] →
      ((insertIfAbsent key (insertIfAbsent key db r) r').filter fun x => key x = key r) = [r]) := by
  refine ⟨insertIfAbsent_second_noop key db r r' hk, fun hf => ?_⟩
  rw [insertIfAbsent_second_noop key db r r' hk]
  exact insertIfAbsent_filter_fresh key db r hf

/-- Claim C1: For every target date, `collectStatsForDate` queries the
event counts over the window `[start, end]` where `start` is claimed to
be the configured timezone's local midnight of the target calendar
date as an absolute instant and `end` 23:59:59.999 of the same local
date — the behaviour `specDayRange` (taken from the spec and from
`getDayRange`'s own doc comment) describes.  The code instead anchors
the window at *UTC* midnight of the timezone's calendar date
(`Date.UTC(year, month - 1, day, ...)`), so for `Asia/Kolkata`
(UTC+5:30) on target instant 2024-01-15T00:00:00Z the produced window
is `[2024-01-15T00:00:00Z, 2024-01-15T23:59:59.999Z]` instead of the
documented `[2024-01-14T18:30:00Z, 2024-01-15T18:29:59.999Z]`: a
reaction at 00:00:00 IST of Jan 15 (in the documented window) is not
counted.  The two agree only for zero-offset zones such as UTC. -/
theorem getDayRange_utc_midnight_code_bug :
    getDayRange 1705276800000 asiaKolkata = (1705276800000, 1705363199999) ∧
    specDayRange 1705276800000 asiaKolkata = (1705257000000, 1705343399999) ∧
    getDayRange 1705276800000 asiaKolkata ≠ specDayRange 1705276800000 asiaKolkata ∧
    getDayRange 1705276800000 utcZone = specDayRange 1705276800000 utcZone ∧
    collectStatsForDate cfgKolkata storesKolkataMidnight 1705276800000 =
      .ok { channelId := "C1", statDate := "2024-01-15", reactionCount := 0,
            newMemberCount := 0, memberRemovedCount := 0, messageCount := 0,
            fileUploadCount := 0 } ∧
    countReactionsBetween storesKolkataMidnight.reactions "C1"
      (specDayRange 1705276800000 asiaKolkata).1
      (specDayRange 1705276800000 asiaKolkata).2 = 1 := by
  exact ⟨by decide, by decide, by decide, by decide, rfl, by decide⟩

/-- Claim C2: For every event record and every event kind, saving twice
with the same external event id leaves exactly one stored row for that
id; the second call is a no-op (no error — the saves are total) and
the fields of the first stored row are unchanged. -/
theorem save_event_dedup :
    (∀ (db : List ReactionRow) (r r' : ReactionRow), r'.eventId = r.eventId →
      saveReactionEvent (saveReactionEvent db r) r' = saveReactionEvent db r ∧
      ((db.filter fun x => x.eventId = r.eventId) = [] →
        ((saveReactionEvent (saveReactionEvent db r) r').filter fun x => x.eventId = r.eventId) = [r])) ∧
    (∀ (db : List MemberRow) (r r' : MemberRow), r'.eventId = r.eventId →
      saveMemberEvent (saveMemberEvent db r) r' = saveMemberEvent db r ∧
      ((db.filter fun x => x.eventId = r.eventId) = [] →
        ((saveMemberEvent (saveMemberEvent db r) r').filter fun x => x.eventId = r.eventId) = [r])) ∧
    (∀ (db : List MessageRow) (r r' : MessageRow), r'.eventId = r.eventId →
      saveMessageEvent (saveMessageEvent db r) r' = saveMessageEvent db r ∧
      ((db.filter fun x => x.eventId = r.eventId) = [] →
        ((saveMessageEvent (saveMessageEvent db r) r').filter fun x => x.eventId = r.eventId) = [r])) ∧
    (∀ (db : List FileRow) (r r' : FileRow), r'.eventId = r.eventId →
      saveFileEvent (saveFileEvent db r) r' = saveFileEvent db r ∧
      ((db.filter fun x => x.eventId = r.eventId) = [] →
        ((saveFileEvent (saveFileEvent db r) r').filter fun x => x.eventId = r.eventId) = [r])) := by
  exact ⟨fun db r r' hk => insertIfAbsent_dedup _ db r r' hk,
         fun db r r' hk => insertIfAbsent_dedup _ db r r' hk,
         fun db r r' hk => insertIfAbsent_dedup _ db r r' hk,
         fun db r r' hk => insertIfAbsent_dedup _ db r r' hk⟩

/-- Witness for C2: concrete double saves in all four tables. -/
theorem save_event_dedup_witness :
    (saveReactionEvent (saveReactionEvent [] reactionAtKolkataMidnight) reactionDuplicate =
      saveReactionEvent [] reactionAtKolkataMidnight) ∧
    ((saveReactionEvent (saveReactionEvent [] reactionAtKolkataMidnight) reactionDuplicate).filter
        (fun x => x.eventId = reactionAtKolkataMidnight.eventId) = [reactionAtKolkataMidnight]) ∧
    (saveMemberEvent (saveMemberEvent [] memberJoinSample) memberJoinSample =
      saveMemberEvent [] memberJoinSample) ∧
    (saveMessageEvent (saveMessageEvent [] messageSample) messageSample =
      saveMessageEvent [] messageSample) ∧
    (saveFileEvent (saveFileEvent [] fileSample) fileSample = saveFileEvent [] fileSample) :=
  ⟨(save_event_dedup.1 [] reactionAtKolkataMidnight reactionDuplicate (by decide)).1,
   (save_event_dedup.1 [] reactionAtKolkataMidnight reactionDuplicate (by decide)).2 (by decide),
   (save_event_dedup.2.1 [] memberJoinSample memberJoinSample (by decide)).1,
   (save_event_dedup.2.2.1 [] messageSample messageSample (by decide)).1,
   (save_event_dedup.2.2.2 [] fileSample fileSample (by decide)).1⟩

/-- The `DO UPDATE` map of `saveDailySummary`, as it acts on the first
row found under the `(channel, date)` key. -/
theorem findSummary_map_update (p : SummaryParams) (db : List DailySummaryRow) :
    ∀ r, findSummary db p.channelId p.statDate = some r →
    findSummary (db.map fun row =>
      if row.channelId = p.channelId ∧ row.statDate = p.statDate then
        { row with
          reactionCount := p.reactionCount
          newMemberCount := p.newMemberCount
          memberRemovedCount := p.memberRemovedCount
          messageCount := p.messageCount
          fileUploadCount := p.fileUploadCount
          messageTs :=
            match jsOrNull p.messageTs with
            | some s => some s
            | none => row.messageTs }
      else row) p.channelId p.statDate =
    some { r with
           reactionCount := p.reactionCount
           newMemberCount := p.newMemberCount
           memberRemovedCount := p.memberRemovedCount
           messageCount := p.messageCount
           fileUploadCount := p.fileUploadCount
           messageTs :=
             match jsOrNull p.messageTs with
             | some s => some s
             | none => r.messageTs } := by
  induction db with
  | nil =>
    intro r h
    simp [findSummary] at h
  | cons a l ih =>
    intro r h
    by_cases ha : a.channelId = p.channelId ∧ a.statDate = p.statDate
    · rw [findSummary, List.find?_cons_of_pos _ (by simpa using ha)] at h
      obtain rfl : a = r := Option.some.inj h
      rw [List.map_cons, if_pos ha, findSummary,
        List.find?_cons_of_pos _ (by simpa using ha)]
    · rw [findSummary, List.find?_cons_of_neg _ (by simpa using ha)] at h
      have step := ih r h
      rw [List.map_cons, if_neg ha, findSummary,
        List.find?_cons_of_neg _ (by simpa using ha)]
      exact step

/-- After any `saveDailySummary db p`, the `(channel, date)` key of
`p` resolves to a row (the upsert always leaves one). -/
theorem findSummary_saveDailySummary_isSome (db : List DailySummaryRow) (p : SummaryParams) :
    (findSummary (saveDailySummary db p) p.channelId p.statDate).isSome := by
  unfold saveDailySummary
  split
  · next hany =>
    rcases List.any_eq_true.mp hany with ⟨x, hx, hpx⟩
    have hpx' : x.channelId = p.channelId ∧ x.statDate = p.statDate := by simpa using hpx
    rw [findSummary, List.find?_isSome]
    refine ⟨_, List.mem_map_of_mem _ hx, ?_⟩
    rw [if_pos hpx']
    simpa using hpx'
  · rw [findSummary, List.find?_isSome]
    refine ⟨{ channelId := p.channelId, statDate := p.statDate,
              reactionCount := p.reactionCount, newMemberCount := p.newMemberCount,
              memberRemovedCount := p.memberRemovedCount, messageCount := p.messageCount,
              fileUploadCount := p.fileUploadCount, messageTs := jsOrNull p.messageTs },
           ?_, ?_⟩
    · simp
    · simp

/-- The update behaviour of `saveDailySummary` on the stored row under
`p`'s key: all five counts replaced, the outbound reference replaced
only when the (`|| null`-coerced) incoming one is non-null. -/
theorem saveDailySummary_update_row (db : List DailySummaryRow) (p : SummaryParams)
    (r : DailySummaryRow) (h : findSummary db p.channelId p.statDate = some r) :
    findSummary (saveDailySummary db p) p.channelId p.statDate =
      some { r with
             reactionCount := p.reactionCount
             newMemberCount := p.newMemberCount
             memberRemovedCount := p.memberRemovedCount
             messageCount := p.messageCount
             fileUploadCount := p.fileUploadCount
             messageTs :=
               match jsOrNull p.messageTs with
               | some s => some s
               | none => r.messageTs } := by
  have hany : (db.any fun row => row.channelId = p.channelId ∧ row.statDate = p.statDate) = true := by
    refine List.any_eq_true.mpr ⟨r, List.mem_of_find?_eq_some h, ?_⟩
    simpa using List.find?_some h
  unfold saveDailySummary
  rw [if_pos hany]
  exact findSummary_map_update p db r h

/-- Claim C3: For every `(channel, date)` key, persisting a summary when
a row already exists replaces all five counts with the new values and
replaces the stored outbound-message reference only when the new
reference is non-null; persisting with a null reference after any
prior persist leaves the stored reference unchanged. -/
theorem saveDailySummary_upsert_semantics :
    (∀ (db : List DailySummaryRow) (p : SummaryParams) (r : DailySummaryRow),
      findSummary db p.channelId p.statDate = some r →
      findSummary (saveDailySummary db p) p.channelId p.statDate =
        some { r with
               reactionCount := p.reactionCount
               newMemberCount := p.newMemberCount
               memberRemovedCount := p.memberRemovedCount
               messageCount := p.messageCount
               fileUploadCount := p.fileUploadCount
               messageTs :=
                 match jsOrNull p.messageTs with
                 | some s => some s
                 | none => r.messageTs }) ∧
    (∀ (db : List DailySummaryRow) (p q : SummaryParams),
      q.channelId = p.channelId → q.statDate = p.statDate → jsOrNull q.messageTs = none →
      (findSummary (saveDailySummary (saveDailySummary db p) q) p.channelId p.statDate).map
          (fun x => x.messageTs) =
        (findSummary (saveDailySummary db p) p.channelId p.statDate).map
          (fun x => x.messageTs)) := by
  refine ⟨saveDailySummary_update_row, fun db p q hch hsd hnull => ?_⟩
  obtain ⟨r1, hr1⟩ := Option.isSome_iff_exists.mp (findSummary_saveDailySummary_isSome db p)
  have hr1q : findSummary (saveDailySummary db p) q.channelId q.statDate = some r1 := by
    rw [hch, hsd]; exact hr1
  have h2 := saveDailySummary_update_row (saveDailySummary db p) q r1 hr1q
  rw [hch, hsd] at h2
  rw [hr1, h2, hnull]
  simp

/-- Witness for C3: a persist with reference `"111.22"` followed by a
re-aggregation persist with a null reference replaces the counts but
keeps the reference. -/
theorem saveDailySummary_upsert_semantics_witness :
    findSummary (saveDailySummary (saveDailySummary [] summaryParamsA) summaryParamsB)
        "C1" "2024-01-15" =
      some { channelId := "C1", statDate := "2024-01-15", reactionCount := 7,
             newMemberCount := 2, memberRemovedCount := 1, messageCount := 12,
             fileUploadCount := 3, messageTs := some "111.22" } ∧
    (findSummary (saveDailySummary (saveDailySummary [] summaryParamsA) summaryParamsB)
        "C1" "2024-01-15").map (fun x => x.messageTs) =
      (findSummary (saveDailySummary [] summaryParamsA) "C1" "2024-01-15").map
        (fun x => x.messageTs) :=
  ⟨saveDailySummary_upsert_semantics.1 (saveDailySummary [] summaryParamsA) summaryParamsB
      { channelId := "C1", statDate := "2024-01-15", reactionCount := 5,
        newMemberCount := 1, memberRemovedCount := 0, messageCount := 10,
        fileUploadCount := 2, messageTs := some "111.22" } (by decide),
   saveDailySummary_upsert_semantics.2 [] summaryParamsA summaryParamsB rfl rfl (by decide)⟩

/-- Claim C5: A message event carrying a (truthy) subtype marker or an
automated-actor (`bot_id`) marker is never persisted: the handler
returns without saving, so the stores are unchanged no matter how many
times the event is delivered, including when delivered through the
dispatcher. -/
theorem handleMessage_never_persists_subtype_or_bot :
    ∀ (st : Stores) (eid : String) (e : SlackEvent) (now : Int),
      (jsTruthy e.subtype || jsTruthy e.botId) = true →
      handleMessage st eid e now = st ∧
      (∀ n : Nat, (fun s => handleMessage s eid e now)^[n] st = st) ∧
      (∀ pid : Option String, e.type = "message" →
        processSlackEvent st { event := some e, eventId := pid } now = st) := by
  intro st eid e now h
  have h1 : ∀ anyId : String, handleMessage st anyId e now = st := by
    intro anyId
    simp [handleMessage, h]
  refine ⟨h1 eid, ?_, ?_⟩
  · intro n
    induction n with
    | zero => rfl
    | succ k ih =>
      rw [Function.iterate_succ_apply', ih]
      exact h1 eid
  · intro pid htype
    by_cases hb : jsTruthy pid = true
    · simp [processSlackEvent, hb, htype, h1]
    · have hb' : jsTruthy pid = false := by
        revert hb; cases jsTruthy pid <;> simp
      simp [processSlackEvent, hb']

/-- Witness for C5: the `message_changed` edit envelope of the spec is
dropped — zero `MessageEvent` rows. -/
theorem handleMessage_never_persists_subtype_or_bot_witness :
    handleMessage {} "Ev9" editedMessageEvent 0 = {} ∧
    (fun s => handleMessage s "Ev9" editedMessageEvent 0)^[5] {} = {} ∧
    processSlackEvent {} { event := some editedMessageEvent, eventId := some "Ev9" } 0 = {} :=
  ⟨(handleMessage_never_persists_subtype_or_bot {} "Ev9" editedMessageEvent 0 (by decide)).1,
   (handleMessage_never_persists_subtype_or_bot {} "Ev9" editedMessageEvent 0 (by decide)).2.1 5,
   (handleMessage_never_persists_subtype_or_bot {} "Ev9" editedMessageEvent 0 (by decide)).2.2
     (some "Ev9") rfl⟩

/-- Claim C7: The canonical timestamp is the platform timestamp read as
fractional seconds since the epoch times 1000 (`"1700000000.0"` is
2023-11-14T22:13:20.000Z = epoch millisecond 1700000000000); an absent
(or empty, hence falsy) timestamp falls back to the normalization-time
instant `now`, so a timestamp is always assigned.  Dispatching the
spec's reaction envelope stores exactly that instant. -/
theorem slackTsToDate_semantics :
    ∀ now : Int,
      slackTsToDate none now = some now ∧
      slackTsToDate (some "") now = some now ∧
      slackTsToDate (some "1700000000.0") now = some 1700000000000 ∧
      slackTsToDate (some "1234567890.123456") now = some 1234567890123 ∧
      processSlackEvent {} sampleReactionPayload 99 =
        { reactions := [{ eventId := "Ev1", channelId := "C1", userId := "U1",
                          reaction := "thumbsup", eventTs := 1700000000000 }] } := by
  intro now
  refine ⟨rfl, rfl, ?_, ?_, by decide⟩
  · simp [slackTsToDate]
    decide
  · simp [slackTsToDate]
    decide

/-- Claim C9: the dispatcher `processSlackEvent` dispatches nothing (stores unchanged)
whenever the event body is missing *or* the external event id is
missing/empty — not only when both are. -/
theorem processSlackEvent_guards :
    ∀ (st : Stores) (p : SlackPayload) (now : Int),
      p.event = none ∨ p.eventId = none ∨ p.eventId = some "" →
      processSlackEvent st p now = st := by
  intro st p now h
  rcases h with h | h | h
  · simp [processSlackEvent, h]
  · cases hev : p.event
    · simp [processSlackEvent, hev]
    · simp only [processSlackEvent, hev, h]
      rw [if_pos (by decide)]
  · cases hev : p.event
    · simp [processSlackEvent, hev]
    · simp only [processSlackEvent, hev, h]
      rw [if_pos (by decide)]

/-- Witness for C9: a well-formed reaction body with no event id is
never stored. -/
theorem processSlackEvent_guards_witness :
    processSlackEvent {} { event := sampleReactionPayload.event, eventId := none } 99 = {} :=
  processSlackEvent_guards {} { event := sampleReactionPayload.event, eventId := none } 99
    (Or.inr (Or.inl rfl))

/-- Claim C6: Each range count is the number of stored records of its
table whose channel matches and whose canonical timestamp lies in
`[start, end]`, inclusive at both ends; the two membership counters
additionally require the `joined` / `left` action respectively.  The
characterization is by additivity over table concatenation plus the
exact indicator value on a one-row table. -/
theorem range_counts_characterization :
    ∀ (ch : String) (s t : Int),
      (∀ (d₁ d₂ : List ReactionRow),
        countReactionsBetween (d₁ ++ d₂) ch s t =
          countReactionsBetween d₁ ch s t + countReactionsBetween d₂ ch s t) ∧
      (∀ r : ReactionRow,
        countReactionsBetween [r] ch s t =
          if r.channelId = ch ∧ s ≤ r.eventTs ∧ r.eventTs ≤ t then 1 else 0) ∧
      (∀ (d₁ d₂ : List MemberRow),
        countNewMembersBetween (d₁ ++ d₂) ch s t =
          countNewMembersBetween d₁ ch s t + countNewMembersBetween d₂ ch s t) ∧
      (∀ m : MemberRow,
        countNewMembersBetween [m] ch s t =
          if m.channelId = ch ∧ m.eventType = "member_joined_channel" ∧
              s ≤ m.eventTs ∧ m.eventTs ≤ t then 1 else 0) ∧
      (∀ (d₁ d₂ : List MemberRow),
        countMembersRemovedBetween (d₁ ++ d₂) ch s t =
          countMembersRemovedBetween d₁ ch s t + countMembersRemovedBetween d₂ ch s t) ∧
      (∀ m : MemberRow,
        countMembersRemovedBetween [m] ch s t =
          if m.channelId = ch ∧ m.eventType = "member_left_channel" ∧
              s ≤ m.eventTs ∧ m.eventTs ≤ t then 1 else 0) ∧
      (∀ (d₁ d₂ : List MessageRow),
        countMessagesBetween (d₁ ++ d₂) ch s t =
          countMessagesBetween d₁ ch s t + countMessagesBetween d₂ ch s t) ∧
      (∀ m : MessageRow,
        countMessagesBetween [m] ch s t =
          if m.channelId = ch ∧ s ≤ m.messageTs ∧ m.messageTs ≤ t then 1 else 0) ∧
      (∀ (d₁ d₂ : List FileRow),
        countFileUploadsBetween (d₁ ++ d₂) ch s t =
          countFileUploadsBetween d₁ ch s t + countFileUploadsBetween d₂ ch s t) ∧
      (∀ f : FileRow,
        countFileUploadsBetween [f] ch s t =
          if f.channelId = ch ∧ s ≤ f.eventTs ∧ f.eventTs ≤ t then 1 else 0) := by
  intro ch s t
  refine ⟨?_, ?_, ?_, ?_, ?_, ?_, ?_, ?_, ?_, ?_⟩
  · intro d₁ d₂; simp [countReactionsBetween, List.filter_append]
  · intro r
    by_cases hc : r.channelId = ch ∧ s ≤ r.eventTs ∧ r.eventTs ≤ t <;>
      simp [countReactionsBetween, hc]
  · intro d₁ d₂; simp [countNewMembersBetween, List.filter_append]
  · intro m
    by_cases hc : m.channelId = ch ∧ m.eventType = "member_joined_channel" ∧
        s ≤ m.eventTs ∧ m.eventTs ≤ t <;>
      simp [countNewMembersBetween, hc]
  · intro d₁ d₂; simp [countMembersRemovedBetween, List.filter_append]
  · intro m
    by_cases hc : m.channelId = ch ∧ m.eventType = "member_left_channel" ∧
        s ≤ m.eventTs ∧ m.eventTs ≤ t <;>
      simp [countMembersRemovedBetween, hc]
  · intro d₁ d₂; simp [countMessagesBetween, List.filter_append]
  · intro m
    by_cases hc : m.channelId = ch ∧ s ≤ m.messageTs ∧ m.messageTs ≤ t <;>
      simp [countMessagesBetween, hc]
  · intro d₁ d₂; simp [countFileUploadsBetween, List.filter_append]
  · intro f
    by_cases hc : f.channelId = ch ∧ s ≤ f.eventTs ∧ f.eventTs ≤ t <;>
      simp [countFileUploadsBetween, hc]

/-- Claim C8: The summary job's target date is the parsed explicit date
string when one parses as a valid calendar date; otherwise (absent or
invalid input) it is the default-date policy: local midnight of
yesterday, or of today when the default-to-today flag is set
(`getDefaultDate false` is exactly one day before
`getDefaultDate true`).  Concretely, at
`now` = 2024-01-15T06:26:40Z with a UTC+5:30 process-local zone,
today's local midnight is 2024-01-14T18:30:00Z (1705257000000) and
yesterday's is 2024-01-13T18:30:00Z (1705170600000). -/
theorem target_date_resolution :
    (∀ (i : Option String) (flag : Bool) (now off t : Int),
      parseDateInput i = some t → resolveTargetDate i flag now off = t) ∧
    (∀ (i : Option String) (flag : Bool) (now off : Int),
      parseDateInput i = none →
      resolveTargetDate i flag now off = getDefaultDate flag now off) ∧
    parseDateInput (some "2024-01-15") = some 1705276800000 ∧
    parseDateInput none = none ∧
    parseDateInput (some "") = none ∧
    parseDateInput (some "not-a-date") = none ∧
    parseDateInput (some "2024-02-30") = none ∧
    (∀ now off : Int, getDefaultDate false now off = getDefaultDate true now off - 86400000) ∧
    getDefaultDate true 1705300000000 330 = 1705257000000 ∧
    getDefaultDate false 1705300000000 330 = 1705170600000 := by
  refine ⟨?_, ?_, by decide, rfl, by decide, by decide, by decide, ?_, by decide, by decide⟩
  · intro i flag now off t h
    simp [resolveTargetDate, h]
  · intro i flag now off h
    simp [resolveTargetDate, h]
  · intro now off
    unfold getDefaultDate
    simp only [Bool.false_eq_true, if_false, if_true]
    rw [msFromCivil_day_pred]
    ring

/-- Witness for C8: a valid explicit date wins; an invalid or absent
one falls back to the default policy. -/
theorem target_date_resolution_witness :
    resolveTargetDate (some "2024-01-15") false 1705300000000 330 = 1705276800000 ∧
    resolveTargetDate (some "not-a-date") false 1705300000000 330 =
      getDefaultDate false 1705300000000 330 ∧
    resolveTargetDate none true 1705300000000 330 = getDefaultDate true 1705300000000 330 :=
  ⟨target_date_resolution.1 (some "2024-01-15") false 1705300000000 330 1705276800000 (by decide),
   target_date_resolution.2.1 (some "not-a-date") false 1705300000000 330 (by decide),
   target_date_resolution.2.1 none true 1705300000000 330 rfl⟩

/-- Counterexample to C4 (as stated): in `envPostFails` the outbound
post throws, so the aggregation-post-persist pipeline fails with that
error — yet the manual trigger's response is HTTP 200 with
`success: true` and no error message, because `runDailySummaryJob`
swallowed the exception before the endpoint's `catch` could see it. -/
theorem runSummary_success_despite_pipeline_failure :
    runDailySummaryJobBody envPostFails { date := none, defaultToToday := false } =
      .error "An API error occurred: channel_not_found" ∧
    (runSummaryEndpoint envPostFails none).1 =
      { status := 200, success := true, error := none } :=
  ⟨rfl, rfl⟩

/-- Claim C4, amended: The manual trigger's handler does have a
success/failure shape, but `runDailySummaryJob` catches and swallows
every pipeline error internally and never rethrows, so the caller
always receives the success response regardless of the pipeline's
outcome; when the pipeline fails, the summary table is simply left
unchanged.  The endpoint's failure branch is unreachable. -/
theorem runSummaryEndpoint_always_reports_success :
    ∀ (env : JobEnv) (date : Option String),
      (runSummaryEndpoint env date).1 = { status := 200, success := true, error := none } ∧
      (∀ e, runDailySummaryJobBody env { date := date, defaultToToday := false } = .error e →
        (runSummaryEndpoint env date).2 = env.summaries) := by
  intro env date
  constructor
  · rfl
  · intro e he
    simp [runSummaryEndpoint, runDailySummaryJob, he]

/-- Witness for C4's amended theorem, at the failing environment. -/
theorem runSummaryEndpoint_always_reports_success_witness :
    (runSummaryEndpoint envPostFails none).1 =
      { status := 200, success := true, error := none } ∧
    (runSummaryEndpoint envPostFails none).2 = envPostFails.summaries :=
  ⟨(runSummaryEndpoint_always_reports_success envPostFails none).1,
   (runSummaryEndpoint_always_reports_success envPostFails none).2
     "An API error occurred: channel_not_found" rfl⟩

/-- Claim C10: Every summary `collectStatsForDate` produces carries the
configured channel id; `runDailySummaryJob` never reads the
`channelId` option (so the slash-command's channel argument cannot
change the outcome), and any summary the job persists is for the
configured channel. -/
theorem summary_channel_always_configured :
    (∀ (cfg : Config) (st : Stores) (t : Int) (s : Summary),
      collectStatsForDate cfg st t = .ok s → s.channelId = cfg.slackChannelId) ∧
    (∀ (env : JobEnv) (o : JobOptions) (x y : Option String),
      runDailySummaryJob env { o with channelId := x } =
        runDailySummaryJob env { o with channelId := y }) ∧
    (∀ (env : JobEnv) (ch ch' : String),
      slashCommandTrigger env ch = slashCommandTrigger env ch') ∧
    (∀ (env : JobEnv) (o : JobOptions) (db : List DailySummaryRow) (s : Summary),
      runDailySummaryJob env o = .ok (db, some s) → s.channelId = env.cfg.slackChannelId) := by
  have hcollect : ∀ (cfg : Config) (st : Stores) (t : Int) (s : Summary),
      collectStatsForDate cfg st t = .ok s → s.channelId = cfg.slackChannelId := by
    intro cfg st t s h
    unfold collectStatsForDate at h
    split at h
    · exact absurd h (by simp)
    · injection h with h'
      rw [← h']
  refine ⟨hcollect, fun env o x y => rfl, fun env ch ch' => rfl, ?_⟩
  intro env o db s h
  unfold runDailySummaryJob at h
  injection h with h'
  cases hbody : runDailySummaryJobBody env o with
  | error e =>
    rw [hbody] at h'
    simp at h'
  | ok pr =>
    rw [hbody] at h'
    have hs : pr.2 = s := by
      have := congrArg Prod.snd h'
      simpa using this
    unfold runDailySummaryJobBody at hbody
    dsimp only at hbody
    cases hc : collectStatsForDate env.cfg env.stores
        (resolveTargetDate o.date o.defaultToToday env.now env.localOffsetMinutes) with
    | error e =>
      rw [hc] at hbody
      simp at hbody
    | ok summary =>
      rw [hc] at hbody
      cases hp : env.postResult with
      | error e =>
        rw [hp] at hbody
        simp at hbody
      | ok mts =>
        rw [hp] at hbody
        have hsum : summary = pr.2 := by
          have := congrArg Prod.snd (Except.ok.inj hbody)
          simpa using this
        rw [← hs, ← hsum]
        exact hcollect _ _ _ _ hc

/-- Witness for C10: the slash-command channel is ignored and the
persisted summary is for the configured channel `"C1"`. -/
theorem summary_channel_always_configured_witness :
    runDailySummaryJob envOk {} = .ok ([summaryRowJan14], some summaryJan14) ∧
    slashCommandTrigger envOk "C999" = slashCommandTrigger envOk "C42" ∧
    summaryJan14.channelId = envOk.cfg.slackChannelId :=
  ⟨rfl,
   summary_channel_always_configured.2.2.1 envOk "C999" "C42",
   summary_channel_always_configured.2.2.2 envOk {} [summaryRowJan14] summaryJan14 rfl⟩

end SlackStats
